import Mathlib

/-!
# Verification of the articulated rigid-body dynamics data model and algorithms

Shallow embedding of `src/ArticulatedFigure.h`: the `Body`, `Joint`, `Contact`
and `Model` records and, modelled from the specification (their implementation
is only declared in the header), the `jcalc` routine and the articulated-body
forward-dynamics algorithms.

Scalars are embedded as `ℚ` (exact arithmetic standing in for `double`).
Trigonometric functions are supplied by the external math library and are
therefore abstracted as an explicit parameter `cs : ℚ → ℚ × ℚ` returning the
pair (cosine, sine) of an angle; every theorem below holds for an arbitrary
such parameter, hence in particular for true cosine/sine.
-/

open Matrix

abbrev V3 := Fin 3 → ℚ
abbrev SV := Fin 6 → ℚ
abbrev M3 := Matrix (Fin 3) (Fin 3) ℚ
abbrev SM := Matrix (Fin 6) (Fin 6) ℚ

/-- A 3x3 matrix given entry by entry (row-major), the embedding of a
`Matrix3d` literal. -/
def m3 (a00 a01 a02 a10 a11 a12 a20 a21 a22 : ℚ) : M3 :=
  Matrix.of fun i j =>
    if i.val = 0 then
      (if j.val = 0 then a00 else if j.val = 1 then a01 else a02)
    else if i.val = 1 then
      (if j.val = 0 then a10 else if j.val = 1 then a11 else a12)
    else
      (if j.val = 0 then a20 else if j.val = 1 then a21 else a22)

/-- A spatial 6-vector given entry by entry, the embedding of
`SpatialVector::set`. -/
def sv6 (a0 a1 a2 a3 a4 a5 : ℚ) : SV := fun i =>
  if i.val = 0 then a0
  else if i.val = 1 then a1
  else if i.val = 2 then a2
  else if i.val = 3 then a3
  else if i.val = 4 then a4
  else a5

/-- A spatial 6x6 matrix given entry by entry (row-major, rows as 6-vectors),
the embedding of `SpatialMatrix::set`. -/
def sm6 (r0 r1 r2 r3 r4 r5 : SV) : SM :=
  Matrix.of fun i j =>
    if i.val = 0 then r0 j
    else if i.val = 1 then r1 j
    else if i.val = 2 then r2 j
    else if i.val = 3 then r3 j
    else if i.val = 4 then r4 j
    else r5 j

/-- The cross-product (skew) matrix of a 3-vector, as written inline in
`Body::Body(mass, com, gyration_radii)` for `com_cross` and used by the
spatial cross operators. -/
def crossMatrix (v : V3) : M3 :=
  m3 0 (-v 2) (v 1)
     (v 2) 0 (-v 0)
     (-v 1) (v 0) 0

/-- `enum JointType` from the header. -/
inductive JointType where
  | JointTypeUndefined
  | JointTypeFixed
  | JointTypeRevolute
deriving DecidableEq

/-- `struct Body`: spatial inertia, center of mass, mass. -/
structure Body where
  mSpatialInertia : SM
  mCenterOfMass : V3
  mMass : ℚ
deriving DecidableEq

/-- The default constructor `Body()`: zero 6x6 spatial inertia,
zero center of mass, mass 1. -/
def Body.default : Body :=
  { mSpatialInertia :=
      sm6 (sv6 0 0 0 0 0 0) (sv6 0 0 0 0 0 0) (sv6 0 0 0 0 0 0)
        (sv6 0 0 0 0 0 0) (sv6 0 0 0 0 0 0) (sv6 0 0 0 0 0 0)
    mCenterOfMass := ![0, 0, 0]
    mMass := 1 }

/-- The parameterized constructor `Body::Body(mass, com, gyration_radii)`:
builds the 6x6 spatial inertia entry by entry exactly as the source does,
from `com_cross`, `parallel_axis = mass * com_cross * transpose(com_cross)`,
`mcc = mass * com_cross` and `mccT = transpose(mcc)`. -/
def Body.fromParams (mass : ℚ) (com gyration_radii : V3) : Body :=
  let com_cross : M3 := crossMatrix com
  let pa : M3 := mass • (com_cross * com_crossᵀ)
  let gr := gyration_radii
  let mcc : M3 := mass • com_cross
  let mccT : M3 := mccᵀ
  { mMass := mass
    mCenterOfMass := com
    mSpatialInertia := sm6
      (sv6 (gr 0 + pa 0 0) (pa 0 1) (pa 0 2) (mcc 0 0) (mcc 0 1) (mcc 0 2))
      (sv6 (pa 1 0) (gr 1 + pa 1 1) (pa 1 2) (mcc 1 0) (mcc 1 1) (mcc 1 2))
      (sv6 (pa 2 0) (pa 2 1) (gr 2 + pa 2 2) (mcc 2 0) (mcc 2 1) (mcc 2 2))
      (sv6 (mccT 0 0) (mccT 0 1) (mccT 0 2) mass 0 0)
      (sv6 (mccT 1 0) (mccT 1 1) (mccT 1 2) 0 mass 0)
      (sv6 (mccT 2 0) (mccT 2 1) (mccT 2 2) 0 0 mass) }

/-- `struct Joint`: 6-vector joint axis and joint type. -/
structure Joint where
  mJointAxis : SV
  mJointType : JointType
deriving DecidableEq

/-- The default constructor `Joint()`: zero axis, `JointTypeUndefined`. -/
def Joint.default : Joint :=
  { mJointAxis := sv6 0 0 0 0 0 0
    mJointType := JointType.JointTypeUndefined }

/-- The parameterized constructor `Joint::Joint(joint_type, joint_axis)`.
The source validates with `assert`s (fatal on violation); a violated
assertion is embedded as `Except.error`.  For a Revolute joint the axis must
be one of the three cardinal unit vectors and is stored in the angular slots
of the 6-vector; for a Fixed joint the source first stores the given axis and
then overwrites it with the zero 6-vector, so the stored axis is zero. -/
def Joint.fromTypeAxis (joint_type : JointType) (joint_axis : V3) :
    Except String Joint :=
  if joint_type = JointType.JointTypeRevolute ∨
      joint_type = JointType.JointTypeFixed then
    if joint_type = JointType.JointTypeRevolute then
      if joint_axis = ![1, 0, 0] ∨ joint_axis = ![0, 1, 0] ∨
          joint_axis = ![0, 0, 1] then
        Except.ok
          { mJointAxis :=
              sv6 (joint_axis 0) (joint_axis 1) (joint_axis 2) 0 0 0
            mJointType := joint_type }
      else
        Except.error "Joint: revolute axis must be a cardinal unit vector"
    else
      Except.ok
        { mJointAxis := sv6 0 0 0 0 0 0
          mJointType := joint_type }
  else
    Except.error "Joint: joint type must be revolute or fixed"

/-- `struct Contact`: body id and contact point. -/
structure Contact where
  mBodyId : ℕ
  mPoint : V3
deriving DecidableEq

/-- The state of an object after running a copy-assignment operator, together
with the value the operator returns.  `ret = none` embeds an operator that
falls off the end of its body without a `return` statement (so that using the
returned reference is undefined); `ret = some r` embeds `return *this`.
`selfAssign` is true when source and target are the same object (the
`this != &other` pointer test in the source). -/
structure AssignResult (α : Type) where
  target : α
  ret : Option α
deriving DecidableEq

/-- `Body::operator=`: copies the three fields when the objects are distinct,
leaves the target unchanged on self-assignment, and contains no `return`
statement on any path. -/
def Body.assign (selfAssign : Bool) (target source : Body) :
    AssignResult Body :=
  if selfAssign then
    { target := target, ret := none }
  else
    { target :=
        { mSpatialInertia := source.mSpatialInertia
          mCenterOfMass := source.mCenterOfMass
          mMass := source.mMass }
      ret := none }

/-- `Joint::operator=`: copies both fields when distinct and returns `*this`. -/
def Joint.assign (selfAssign : Bool) (target source : Joint) :
    AssignResult Joint :=
  let t :=
    if selfAssign then target
    else
      { mJointAxis := source.mJointAxis
        mJointType := source.mJointType }
  { target := t, ret := some t }

/-- `Contact::operator=`: copies both fields when distinct and returns `*this`. -/
def Contact.assign (selfAssign : Bool) (target source : Contact) :
    AssignResult Contact :=
  let t :=
    if selfAssign then target
    else
      { mBodyId := source.mBodyId
        mPoint := source.mPoint }
  { target := t, ret := some t }

/-- Embedding of a Fin 3 index into the angular (first three) slots of a
spatial index. -/
def fl (i : Fin 3) : Fin 6 := ⟨i.val, by omega⟩

/-- Embedding of a Fin 3 index into the linear (last three) slots of a
spatial index. -/
def fh (i : Fin 3) : Fin 6 := ⟨i.val + 3, by omega⟩

/-- Upper-left 3x3 block of a 6x6 spatial matrix. -/
def blockUL (A : SM) : M3 := Matrix.of fun i j => A (fl i) (fl j)

/-- Upper-right 3x3 block of a 6x6 spatial matrix. -/
def blockUR (A : SM) : M3 := Matrix.of fun i j => A (fl i) (fh j)

/-- Lower-left 3x3 block of a 6x6 spatial matrix. -/
def blockLL (A : SM) : M3 := Matrix.of fun i j => A (fh i) (fl j)

/-- Lower-right 3x3 block of a 6x6 spatial matrix. -/
def blockLR (A : SM) : M3 := Matrix.of fun i j => A (fh i) (fh j)

/-- Builds a 6x6 spatial matrix from four 3x3 blocks. -/
def blk (A B C D : M3) : SM :=
  Matrix.of fun i j =>
    if hi : (i : ℕ) < 3 then
      if hj : (j : ℕ) < 3 then A ⟨i, hi⟩ ⟨j, hj⟩
      else B ⟨i, hi⟩ ⟨(j : ℕ) - 3, by omega⟩
    else
      if hj : (j : ℕ) < 3 then C ⟨(i : ℕ) - 3, by omega⟩ ⟨j, hj⟩
      else D ⟨(i : ℕ) - 3, by omega⟩ ⟨(j : ℕ) - 3, by omega⟩

/-- Angular (first three) components of a spatial vector. -/
def angOf (v : SV) : V3 := fun i => v (fl i)

/-- Linear (last three) components of a spatial vector. -/
def linOf (v : SV) : V3 := fun i => v (fh i)

/-- Spatial motion cross-product operator of a spatial vector `(w, v)`:
`[[skew w, 0], [skew v, skew w]]`. -/
def crossM (v : SV) : SM :=
  blk (crossMatrix (angOf v)) 0 (crossMatrix (linOf v)) (crossMatrix (angOf v))

/-- Spatial force cross-product operator of a spatial vector `(w, v)`:
`[[skew w, skew v], [0, skew w]]`. -/
def crossF (v : SV) : SM :=
  blk (crossMatrix (angOf v)) (crossMatrix (linOf v)) 0 (crossMatrix (angOf v))

/-- 3x3 coordinate-rotation matrix about a cardinal axis, given the cosine
and sine of the rotation angle (identity for a non-cardinal axis, which a
validly constructed revolute joint never stores). -/
def rotE (axis : V3) (c s : ℚ) : M3 :=
  if axis = ![1, 0, 0] then
    !![1, 0, 0;
       0, c, s;
       0, -s, c]
  else if axis = ![0, 1, 0] then
    !![c, 0, -s;
       0, 1, 0;
       s, 0, c]
  else if axis = ![0, 0, 1] then
    !![c, s, 0;
       -s, c, 0;
       0, 0, 1]
  else 1

/-- Spatial (6x6) pure-rotation transform with 3x3 rotation `E` in both
diagonal blocks. -/
def spatialRot (E : M3) : SM := blk E 0 0 E

/-- `struct Model`, restricted to the fields the dynamics algorithms read.
Index 0 of every per-body container belongs to the root/base body; movable
bodies occupy indices `1 .. numBodies`. -/
structure Model where
  lambda : List ℕ
  mJoints : List Joint
  X_T : List SM
  mBodies : List Body
  gravity : V3
  floating_base : Bool

/-- Number of movable bodies (`mBodies` holds the base at index 0). -/
def Model.NB (m : Model) : ℕ := m.mBodies.length - 1

/-- Parent id of body `i` (`lambda[i]`). -/
def Model.parent (m : Model) (i : ℕ) : ℕ := m.lambda.getD i 0

/-- Joint `i` (default-constructed joint when out of range). -/
def Model.joint (m : Model) (i : ℕ) : Joint := m.mJoints.getD i Joint.default

/-- Joint-frame transform `X_T[i]` (identity when out of range). -/
def Model.XT (m : Model) (i : ℕ) : SM := m.X_T.getD i 1

/-- Body `i` (default-constructed body when out of range). -/
def Model.body (m : Model) (i : ℕ) : Body := m.mBodies.getD i Body.default

/-- Result record of `jcalc`: joint transform, motion subspace, joint
velocity and rhenomic acceleration term. -/
structure JcalcResult where
  XJ : SM
  S : SV
  vJ : SV
  cJ : SV
deriving DecidableEq

/-- Modelled from the spec: the implementation of `jcalc` is declared but not
present in the header, so it is modelled from §4.1.  For a Revolute joint,
`XJ` is the pure spatial rotation about the joint's stored cardinal axis by
the joint angle `q` (whose cosine and sine are produced by the external math
library, abstracted as `cs`), `S` is the joint's stored 6-vector axis,
`v_J = S * qdot` and `c_J = 0`.  For a Fixed joint, `XJ` is the identity and
`S`, `v_J`, `c_J` are all zero.  Any other joint type is a fatal precondition
violation, embedded as `Except.error`. -/
def jcalc (cs : ℚ → ℚ × ℚ) (m : Model) (i : ℕ) (q qdot : ℚ) :
    Except String JcalcResult :=
  let j := m.joint i
  match j.mJointType with
  | JointType.JointTypeRevolute =>
      Except.ok
        { XJ := spatialRot (rotE (angOf j.mJointAxis) (cs q).1 (cs q).2)
          S := j.mJointAxis
          vJ := qdot • j.mJointAxis
          cJ := 0 }
  | JointType.JointTypeFixed =>
      Except.ok { XJ := 1, S := 0, vJ := 0, cJ := 0 }
  | JointType.JointTypeUndefined =>
      Except.error "jcalc: unsupported joint type"

/-- Per-body state produced by the first (outward) pass of the forward
dynamics: joint transforms, base transforms, velocities, bias accelerations,
initial articulated inertias and bias forces, and the per-joint motion
subspaces. -/
structure Pass1State where
  X_lambda : ℕ → SM
  X_base : ℕ → SM
  v : ℕ → SV
  c : ℕ → SV
  IA : ℕ → SM
  pA : ℕ → SV
  S : ℕ → SV

/-- Initial state of the outward pass: the base transform and base velocity
are the seeds (`identity` and `0` for a fixed base, `X_B` and `v_B` for the
floating entry point), articulated inertias start at the bodies' spatial
inertias, and the base bias force is the gyroscopic term of the base. -/
def pass1Init (m : Model) (X0 : SM) (v0 : SV) : Pass1State :=
  { X_lambda := fun _ => 1
    X_base := fun i => if i = 0 then X0 else 1
    v := fun i => if i = 0 then v0 else 0
    c := fun _ => 0
    IA := fun i => (m.body i).mSpatialInertia
    pA := fun i =>
      if i = 0 then (crossF v0).mulVec ((m.body 0).mSpatialInertia.mulVec v0)
      else 0
    S := fun _ => 0 }

/-- Modelled from the spec (§4.2 step 1): one step of the outward pass for
body `i`: run `jcalc`, compose `X_lambda[i] = XJ * X_T[i]` and
`X_base[i] = X_lambda[i] * X_base[parent]`, propagate the spatial velocity
`v[i] = X_lambda[i] * v[parent] + v_J`, compute the bias acceleration
`c[i] = v[i] x (S[i] * qdot) + c_J` and the bias force
`pA[i] = v[i] x* (IA[i] * v[i])`. -/
def outwardStep (cs : ℚ → ℚ × ℚ) (m : Model) (q qd : ℕ → ℚ)
    (st : Pass1State) (i : ℕ) : Except String Pass1State :=
  match jcalc cs m i (q i) (qd i) with
  | Except.error e => Except.error e
  | Except.ok jc =>
      let Xl := jc.XJ * m.XT i
      let Xb := Xl * st.X_base (m.parent i)
      let vi := Xl.mulVec (st.v (m.parent i)) + jc.vJ
      let ci := (crossM vi).mulVec (qd i • jc.S) + jc.cJ
      let pAi := (crossF vi).mulVec ((st.IA i).mulVec vi)
      Except.ok
        { st with
          X_lambda := fun n => if n = i then Xl else st.X_lambda n
          X_base := fun n => if n = i then Xb else st.X_base n
          v := fun n => if n = i then vi else st.v n
          c := fun n => if n = i then ci else st.c n
          pA := fun n => if n = i then pAi else st.pA n
          S := fun n => if n = i then jc.S else st.S n }

/-- Outward pass over bodies `1 .. k` in ascending order. -/
def outwardPass (cs : ℚ → ℚ × ℚ) (m : Model) (q qd : ℕ → ℚ) :
    ℕ → Pass1State → Except String Pass1State
  | 0, st => Except.ok st
  | k + 1, st =>
      match outwardPass cs m q qd k st with
      | Except.error e => Except.error e
      | Except.ok st1 => outwardStep cs m q qd st1 (k + 1)

/-- State of the second (inward) pass: articulated inertias and bias forces
being accumulated toward the root, and the per-joint quantities `U`, `d`,
`u`. -/
structure Pass2State where
  IA : ℕ → SM
  pA : ℕ → SV
  U : ℕ → SV
  d : ℕ → ℚ
  u : ℕ → ℚ

/-- Initial state of the inward pass, taken from the outward pass. -/
def pass2Init (p1 : Pass1State) : Pass2State :=
  { IA := p1.IA
    pA := p1.pA
    U := fun _ => 0
    d := fun _ => 0
    u := fun _ => 0 }

/-- Modelled from the spec (§4.2 step 2, §7, §8): one step of the inward
pass for body `i`: `U[i] = IA[i] * S[i]`, `d[i] = S[i]^T * U[i]`,
`u[i] = tau[i] - S[i]^T * pA[i] - S[i]^T * (IA[i] * c[i])`, then the
articulated inertia and bias force of body `i` are folded into its parent.
A Fixed joint has zero motion subspace and is algebraically decoupled (§8):
its fold omits the rank-one correction and the `U * u / d` term (both vanish
with `S[i] = 0`), and no division is performed.  For a Revolute joint a zero
effective inertia `d[i]` is a degenerate, ill-conditioned model and is
surfaced as an error instead of being divided (§7); otherwise the fold is
`IA[parent] += X_lambda[i]^T * (IA[i] - U[i]*U[i]^T / d[i]) * X_lambda[i]`
and
`pA[parent] += X_lambda[i]^T * (pA[i] + IA[i]*c[i] + U[i]*u[i] / d[i])`. -/
def inwardStep (m : Model) (p1 : Pass1State) (tau : ℕ → ℚ) (i : ℕ)
    (st : Pass2State) : Except String Pass2State :=
  let Si := p1.S i
  let Ui := (st.IA i).mulVec Si
  let di := Si ⬝ᵥ Ui
  let ui := tau i - Si ⬝ᵥ st.pA i - Si ⬝ᵥ ((st.IA i).mulVec (p1.c i))
  let p := m.parent i
  match (m.joint i).mJointType with
  | JointType.JointTypeFixed =>
      let Ia := st.IA i
      let pa := st.pA i + (st.IA i).mulVec (p1.c i)
      Except.ok
        { IA := fun n =>
            if n = p then st.IA p + (p1.X_lambda i)ᵀ * Ia * p1.X_lambda i
            else st.IA n
          pA := fun n =>
            if n = p then st.pA p + (p1.X_lambda i)ᵀ.mulVec pa
            else st.pA n
          U := fun n => if n = i then Ui else st.U n
          d := fun n => if n = i then di else st.d n
          u := fun n => if n = i then ui else st.u n }
  | JointType.JointTypeRevolute =>
      if di = 0 then
        Except.error "ForwardDynamics: zero effective joint inertia d"
      else
        let Ia := st.IA i - (1 / di) • vecMulVec Ui Ui
        let pa := st.pA i + (st.IA i).mulVec (p1.c i) + (ui / di) • Ui
        Except.ok
          { IA := fun n =>
              if n = p then st.IA p + (p1.X_lambda i)ᵀ * Ia * p1.X_lambda i
              else st.IA n
            pA := fun n =>
              if n = p then st.pA p + (p1.X_lambda i)ᵀ.mulVec pa
              else st.pA n
            U := fun n => if n = i then Ui else st.U n
            d := fun n => if n = i then di else st.d n
            u := fun n => if n = i then ui else st.u n }
  | JointType.JointTypeUndefined =>
      Except.error "ForwardDynamics: unsupported joint type"

/-- Inward pass over bodies `k .. 1` in descending order. -/
def inwardPass (m : Model) (p1 : Pass1State) (tau : ℕ → ℚ) :
    ℕ → Pass2State → Except String Pass2State
  | 0, st => Except.ok st
  | k + 1, st =>
      match inwardStep m p1 tau (k + 1) st with
      | Except.error e => Except.error e
      | Except.ok st1 => inwardPass m p1 tau k st1

/-- Modelled from the spec (§4.2 step 3, §8): the final outward pass over
bodies `1 .. k` resolving accelerations: `a[i] = X_lambda[i] * a[parent] +
c[i]`, then for a Fixed joint `qddot[i] = 0` (its motion subspace is zero and
it is algebraically decoupled), otherwise
`qddot[i] = (u[i] - U[i]^T * a[i]) / d[i]`, and finally
`a[i] += S[i] * qddot[i]`. -/
def accelPass (m : Model) (p1 : Pass1State) (p2 : Pass2State) :
    ℕ → (ℕ → SV) → (ℕ → ℚ) → (ℕ → SV) × (ℕ → ℚ)
  | 0, a, qdd => (a, qdd)
  | k + 1, a, qdd =>
      let r := accelPass m p1 p2 k a qdd
      let i := k + 1
      let ai := (p1.X_lambda i).mulVec (r.1 (m.parent i)) + p1.c i
      let qi :=
        match (m.joint i).mJointType with
        | JointType.JointTypeFixed => 0
        | _ => (p2.u i - p2.U i ⬝ᵥ ai) / p2.d i
      (fun n => if n = i then ai + qi • p1.S i else r.1 n,
       fun n => if n = i then qi else r.2 n)

/-- Laplace expansion along the first row, with fuel bounding the recursion
depth (7 suffices for 6x6 matrices). -/
def detRows : ℕ → List (List ℚ) → ℚ
  | 0, _ => 0
  | _ + 1, [] => 1
  | fuel + 1, r :: rs =>
      (List.range r.length).foldr
        (fun j acc =>
          (-1) ^ j * r.getD j 0 *
            detRows fuel (rs.map fun row => row.take j ++ row.drop (j + 1)) +
          acc)
        0

/-- Rows of a 6x6 matrix whose column `j` has been replaced by `b`. -/
def rowsReplaceCol (A : SM) (b : SV) (j : Fin 6) : List (List ℚ) :=
  (List.finRange 6).map fun i =>
    (List.finRange 6).map fun l => if l = j then b i else A i l

/-- Rows of a 6x6 matrix as lists. -/
def rowsOf (A : SM) : List (List ℚ) :=
  (List.finRange 6).map fun i => (List.finRange 6).map fun l => A i l

/-- Modelled from the spec (§4.3): the 6x6 linear solve used to resolve the
base acceleration, realized by Cramer's rule (a singular accumulated base
inertia has no well-posed solution; the convention `x / 0 = 0` applies
there). -/
def solve6 (A : SM) (b : SV) : SV :=
  fun j => detRows 7 (rowsReplaceCol A b j) / detRows 7 (rowsOf A)

/-- Result record of a forward-dynamics call, exposing the joint
accelerations both as the external 0-based vector `QDDot` and as the internal
1-based function `qdd`, together with the scratch quantities the algorithm
stored in the model (`a`, `U`, `d`, `u`). -/
structure FDResult where
  QDDot : List ℚ
  qdd : ℕ → ℚ
  a : ℕ → SV
  U : ℕ → SV
  d : ℕ → ℚ
  u : ℕ → ℚ

/-- The first two passes shared by both forward-dynamics entry points, with
the base transform and base velocity supplied as seeds.  The external state
vectors `Q`, `QDot`, `Tau` are 0-based with entry `i - 1` holding joint `i`'s
variable. -/
def fdPasses (cs : ℚ → ℚ × ℚ) (m : Model) (Q QDot Tau : List ℚ)
    (X0 : SM) (v0 : SV) : Except String (Pass1State × Pass2State) :=
  match outwardPass cs m (fun i => Q.getD (i - 1) 0)
      (fun i => QDot.getD (i - 1) 0) m.NB (pass1Init m X0 v0) with
  | Except.error e => Except.error e
  | Except.ok p1 =>
      match inwardPass m p1 (fun i => Tau.getD (i - 1) 0) m.NB
          (pass2Init p1) with
      | Except.error e => Except.error e
      | Except.ok p2 => Except.ok (p1, p2)

/-- The final pass, seeded with the root acceleration `a0`, packaging the
result. -/
def fdFinish (m : Model) (p1 : Pass1State) (p2 : Pass2State) (a0 : SV) :
    FDResult :=
  let r := accelPass m p1 p2 m.NB (fun i => if i = 0 then a0 else 0)
      (fun _ => 0)
  { QDDot := (List.range m.NB).map fun k => r.2 (k + 1)
    qdd := r.2
    a := r.1
    U := p2.U
    d := p2.d
    u := p2.u }

/-- Modelled from the spec: the spatial root acceleration seed of the
fixed-base algorithm, the standard equivalent of applying the gravitational
force at the base and propagating it outward (§4.2): the root is given the
acceleration `-gravity` in its linear slots. -/
def gravSeed (m : Model) : SV :=
  -sv6 0 0 0 (m.gravity 0) (m.gravity 1) (m.gravity 2)

/-- Modelled from the spec (§4.2): `ForwardDynamics` for a fixed base.  The
implementation is declared but not present in the header; the three-pass
articulated-body algorithm described in the spec is used, with the root frame
fixed (`X_base[0] = identity`, `v[0] = 0`) and the root acceleration seeded
from gravity. -/
def ForwardDynamics (cs : ℚ → ℚ × ℚ) (m : Model) (Q QDot Tau : List ℚ) :
    Except String FDResult :=
  match fdPasses cs m Q QDot Tau 1 0 with
  | Except.error e => Except.error e
  | Except.ok p => Except.ok (fdFinish m p.1 p.2 (gravSeed m))

/-- Modelled from the spec (§3, §4.3, §8): `ForwardDynamicsFloatingBase`.
The externally supplied base transform `X_B` and base velocity `v_B` replace
the fixed root frame in the same two passes.  When `floating_base` is set the
base is dynamic: its 6-DOF acceleration is solved from the accumulated
`IA[0]`, `pA[0]` and the external base force `f_B` by a 6x6 linear solve.
When `floating_base` is not set the floating-base semantics is disabled
(§3 marks the base fields as meaningful only when the flag is true, and §8
requires this entry point to agree with `ForwardDynamics` then): the base is
held fixed and the root acceleration is the same gravity seed as in the
fixed-base algorithm.  Returns the base acceleration `a_B` and the joint
accelerations. -/
def ForwardDynamicsFloatingBase (cs : ℚ → ℚ × ℚ) (m : Model)
    (Q QDot Tau : List ℚ) (X_B : SM) (v_B f_B : SV) :
    Except String (SV × FDResult) :=
  match fdPasses cs m Q QDot Tau X_B v_B with
  | Except.error e => Except.error e
  | Except.ok p =>
      let aB :=
        if m.floating_base then solve6 (p.2.IA 0) (f_B - p.2.pA 0)
        else gravSeed m
      Except.ok (aB, fdFinish m p.1 p.2 aB)

theorem fin6_v0 : ((0 : Fin 6) : ℕ) = 0 := rfl

theorem fin6_v1 : ((1 : Fin 6) : ℕ) = 1 := rfl

theorem fin6_v2 : ((2 : Fin 6) : ℕ) = 2 := rfl

theorem fin6_v3 : ((3 : Fin 6) : ℕ) = 3 := rfl

theorem fin6_v4 : ((4 : Fin 6) : ℕ) = 4 := rfl

theorem fin6_v5 : ((5 : Fin 6) : ℕ) = 5 := rfl

theorem fin3_v0 : ((0 : Fin 3) : ℕ) = 0 := rfl

theorem fin3_v1 : ((1 : Fin 3) : ℕ) = 1 := rfl

theorem fin3_v2 : ((2 : Fin 3) : ℕ) = 2 := rfl

set_option maxHeartbeats 4000000

/-- C1: for every `Body` constructed from `(mass, com, gyration_radii)`, the
resulting `mSpatialInertia` is a symmetric 6x6 matrix of the parallel-axis
form: its lower-right 3x3 block is `mass` times the identity, its upper-right
block is `mass` times the cross-product matrix of `com`, its lower-left block
is the transpose of the upper-right block, and its upper-left block is the
rotational inertia about the COM (the gyration-radii diagonal) translated to
the body origin by adding `mass * com_cross * transpose(com_cross)`. -/
theorem body_fromParams_spatial_inertia_blocks (mass : ℚ)
    (com gyration_radii : V3) :
    ((Body.fromParams mass com gyration_radii).mSpatialInertia)ᵀ =
        (Body.fromParams mass com gyration_radii).mSpatialInertia ∧
    blockLR (Body.fromParams mass com gyration_radii).mSpatialInertia =
        m3 mass 0 0 0 mass 0 0 0 mass ∧
    blockUR (Body.fromParams mass com gyration_radii).mSpatialInertia =
        mass • crossMatrix com ∧
    blockLL (Body.fromParams mass com gyration_radii).mSpatialInertia =
        (mass • crossMatrix com)ᵀ ∧
    blockUL (Body.fromParams mass com gyration_radii).mSpatialInertia =
        m3 (gyration_radii 0) 0 0 0 (gyration_radii 1) 0 0 0
            (gyration_radii 2) +
          mass • (crossMatrix com * (crossMatrix com)ᵀ) := by
  refine ⟨?_, ?_, ?_, ?_, ?_⟩ <;>
    · ext i j
      fin_cases i <;> fin_cases j <;>
        · simp [Body.fromParams, blockUL, blockUR, blockLL, blockLR, fl, fh,
            sm6, sv6, m3, crossMatrix, Matrix.mul_apply, Fin.sum_univ_three,
            fin6_v0, fin6_v1, fin6_v2, fin6_v3, fin6_v4, fin6_v5, fin3_v0,
            fin3_v1, fin3_v2, -mul_eq_mul_left_iff, -mul_eq_mul_right_iff]
          try ring

/-- C2: constructing a Joint with a joint type other than Fixed or Revolute
fails, and constructing a Revolute joint whose axis is not exactly (1,0,0),
(0,1,0) or (0,0,1) fails: every such invalid `(joint_type, joint_axis)` input
makes the constructor raise a fatal input-validation error instead of
producing a Joint. -/
theorem joint_invalid_construction_fails (jt : JointType) (axis : V3)
    (h : (jt ≠ JointType.JointTypeFixed ∧ jt ≠ JointType.JointTypeRevolute) ∨
      (jt = JointType.JointTypeRevolute ∧ axis ≠ ![1, 0, 0] ∧
        axis ≠ ![0, 1, 0] ∧ axis ≠ ![0, 0, 1])) :
    ∃ e, Joint.fromTypeAxis jt axis = Except.error e := by
  rcases h with ⟨h1, h2⟩ | ⟨rfl, h1, h2, h3⟩
  · exact ⟨_, by rw [Joint.fromTypeAxis, if_neg (by tauto)]⟩
  · exact ⟨_, by rw [Joint.fromTypeAxis, if_pos (Or.inl rfl), if_pos rfl,
      if_neg (by tauto)]⟩

/-- C2 witness: constructing a Revolute joint with the non-cardinal axis
(1,1,0) fails. -/
theorem joint_invalid_construction_fails_witness :
    ∃ e, Joint.fromTypeAxis JointType.JointTypeRevolute ![1, 1, 0] =
      Except.error e :=
  joint_invalid_construction_fails JointType.JointTypeRevolute ![1, 1, 0]
    (Or.inr ⟨rfl, by decide, by decide, by decide⟩)

/-- C3: for every successfully constructed Joint, if the type is Revolute the
stored `mJointAxis` is the 6-vector `(a0, a1, a2, 0, 0, 0)` (the requested
axis in the angular slots, zero linear slots); if the type is Fixed the
stored `mJointAxis` is the zero 6-vector regardless of the axis argument. -/
theorem joint_stored_axis_by_type (jt : JointType) (axis : V3) (j : Joint)
    (h : Joint.fromTypeAxis jt axis = Except.ok j) :
    (jt = JointType.JointTypeRevolute →
      j.mJointAxis = sv6 (axis 0) (axis 1) (axis 2) 0 0 0) ∧
    (jt = JointType.JointTypeFixed → j.mJointAxis = sv6 0 0 0 0 0 0) := by
  cases jt with
  | JointTypeUndefined => simp [Joint.fromTypeAxis] at h
  | JointTypeRevolute =>
      refine ⟨fun _ => ?_, fun hf => by simp at hf⟩
      rw [Joint.fromTypeAxis, if_pos (Or.inl rfl), if_pos rfl] at h
      split at h
      · injection h with h2
        subst h2
        rfl
      · simp at h
  | JointTypeFixed =>
      refine ⟨fun hr => by simp at hr, fun _ => ?_⟩
      rw [Joint.fromTypeAxis, if_pos (Or.inr rfl), if_neg (by simp)] at h
      injection h with h2
      subst h2
      rfl

/-- C3 witness: the Revolute joint constructed with axis (0,0,1) stores the
6-vector (0,0,1,0,0,0), by the theorem applied at that concrete input. -/
theorem joint_stored_axis_by_type_witness :
    ({ mJointAxis := sv6 0 0 1 0 0 0
       mJointType := JointType.JointTypeRevolute } : Joint).mJointAxis =
      sv6 ((![0, 0, 1] : V3) 0) ((![0, 0, 1] : V3) 1) ((![0, 0, 1] : V3) 2)
        0 0 0 :=
  (joint_stored_axis_by_type JointType.JointTypeRevolute ![0, 0, 1]
      { mJointAxis := sv6 0 0 1 0 0 0
        mJointType := JointType.JointTypeRevolute }
      rfl).1 rfl

/-- C8: a default-constructed Joint has `mJointType = JointTypeUndefined`,
a value that is neither Fixed nor Revolute, and the zero 6-vector axis; the
default constructor performs no validation, while the parameterized
constructor rejects the Undefined type for every axis. -/
theorem default_joint_undefined_without_validation :
    Joint.default.mJointType = JointType.JointTypeUndefined ∧
    JointType.JointTypeUndefined ≠ JointType.JointTypeFixed ∧
    JointType.JointTypeUndefined ≠ JointType.JointTypeRevolute ∧
    Joint.default.mJointAxis = sv6 0 0 0 0 0 0 ∧
    (∀ axis : V3, ∃ e,
      Joint.fromTypeAxis JointType.JointTypeUndefined axis =
        Except.error e) :=
  ⟨rfl, by decide, by decide, rfl, fun axis => ⟨_, rfl⟩⟩

/-- C8 witness: the theorem applied at the concrete axis (0,0,0). -/
theorem default_joint_undefined_without_validation_witness :
    Joint.default.mJointType = JointType.JointTypeUndefined ∧
    (∃ e, Joint.fromTypeAxis JointType.JointTypeUndefined ![0, 0, 0] =
      Except.error e) :=
  ⟨default_joint_undefined_without_validation.1,
   default_joint_undefined_without_validation.2.2.2.2 ![0, 0, 0]⟩

/-- C9: a default-constructed Body has mass 1, zero center of mass, and the
zero 6x6 spatial inertia; this is not the spatial inertia the parameterized
constructor would derive from mass 1 and zero COM (whose (3,3) entry — the
first lower-right diagonal entry — is the mass, 1, for every choice of
gyration radii), so the default body's spatial inertia is inconsistent with
its mass, and it is not positive-definite. -/
theorem default_body_inertia_inconsistent :
    Body.default.mMass = 1 ∧
    Body.default.mCenterOfMass = ![0, 0, 0] ∧
    Body.default.mSpatialInertia = (0 : SM) ∧
    Body.default.mSpatialInertia 3 3 = 0 ∧
    (∀ gyration_radii : V3,
      (Body.fromParams 1 ![0, 0, 0] gyration_radii).mSpatialInertia 3 3 =
        1) ∧
    (∀ gyration_radii : V3,
      Body.default.mSpatialInertia ≠
        (Body.fromParams 1 ![0, 0, 0] gyration_radii).mSpatialInertia) ∧
    ¬ (∀ x : SV, x ≠ 0 →
        0 < x ⬝ᵥ Body.default.mSpatialInertia.mulVec x) := by
  refine ⟨rfl, by decide, by decide, rfl, fun gr => rfl, fun gr h => ?_, ?_⟩
  · have h33 := congrFun (congrFun h 3) 3
    have hL : Body.default.mSpatialInertia 3 3 = 0 := rfl
    have hR : (Body.fromParams 1 ![0, 0, 0] gr).mSpatialInertia 3 3 = 1 := rfl
    rw [hL, hR] at h33
    exact absurd h33 (by norm_num)
  · intro hPD
    have h1 := hPD (sv6 1 0 0 0 0 0) (by decide)
    have h2 : sv6 1 0 0 0 0 0 ⬝ᵥ
        Body.default.mSpatialInertia.mulVec (sv6 1 0 0 0 0 0) = 0 := by
      norm_num [Body.default, sm6, sv6, Matrix.mulVec, Matrix.dotProduct,
        Fin.sum_univ_six, fin6_v0, fin6_v1, fin6_v2, fin6_v3, fin6_v4,
        fin6_v5]
    rw [h2] at h1
    exact lt_irrefl 0 h1

/-- C9 witness: the default body's spatial inertia differs from the one the
parameterized constructor derives at the concrete input
`(1, (0,0,0), (1,1,1))`. -/
theorem default_body_inertia_inconsistent_witness :
    Body.default.mSpatialInertia ≠
      (Body.fromParams 1 ![0, 0, 0] ![1, 1, 1]).mSpatialInertia :=
  default_body_inertia_inconsistent.2.2.2.2.2.1 ![1, 1, 1]

/-- C10: `Body::operator=` copies all three fields from the source when
source and target are distinct and leaves the target unchanged on
self-assignment, but it returns no value on any path (embedded as
`ret = none`), unlike `Joint::operator=` and `Contact::operator=`, which
return the assigned object. -/
theorem body_assign_copies_but_returns_nothing (t s : Body) :
    (Body.assign false t s).target = s ∧
    (Body.assign true t t).target = t ∧
    (∀ b : Bool, (Body.assign b t s).ret = none) ∧
    (∀ jt js : Joint,
      (Joint.assign false jt js).ret =
        some (Joint.assign false jt js).target) ∧
    (∀ ct c2 : Contact,
      (Contact.assign false ct c2).ret =
        some (Contact.assign false ct c2).target) := by
  refine ⟨rfl, rfl, fun b => ?_, fun jt js => rfl, fun ct c2 => rfl⟩
  cases b <;> rfl

/-- C4: for every model, joint id and state, `jcalc` returns, for a Revolute
joint, the pure spatial rotation about the joint's stored axis by angle `q`
(cosine/sine supplied by `cs`), the joint's stored 6-vector axis as `S`,
`v_J = S * qdot` and `c_J = 0`; for a Fixed joint the identity transform,
zero `S`, zero `v_J` and zero `c_J`; and a fatal precondition violation
(an error) for any other joint type. -/
theorem jcalc_by_joint_type (cs : ℚ → ℚ × ℚ) (m : Model) (i : ℕ)
    (q qdot : ℚ) :
    ((m.joint i).mJointType = JointType.JointTypeRevolute →
      jcalc cs m i q qdot = Except.ok
        { XJ := spatialRot
            (rotE (angOf (m.joint i).mJointAxis) (cs q).1 (cs q).2)
          S := (m.joint i).mJointAxis
          vJ := qdot • (m.joint i).mJointAxis
          cJ := 0 }) ∧
    ((m.joint i).mJointType = JointType.JointTypeFixed →
      jcalc cs m i q qdot = Except.ok
        { XJ := 1, S := 0, vJ := 0, cJ := 0 }) ∧
    ((m.joint i).mJointType = JointType.JointTypeUndefined →
      jcalc cs m i q qdot =
        Except.error "jcalc: unsupported joint type") := by
  refine ⟨fun h => ?_, fun h => ?_, fun h => ?_⟩ <;> simp [jcalc, h]

/-- The three-joint example model used to exercise `jcalc`: joint 1 is
Revolute about the z-axis, joint 2 is Fixed, joint 0 (the placeholder) is
default-constructed, hence Undefined. -/
def exJcalcModel : Model :=
  { lambda := [0, 0, 0]
    mJoints := [Joint.default,
      { mJointAxis := sv6 0 0 1 0 0 0
        mJointType := JointType.JointTypeRevolute },
      { mJointAxis := sv6 0 0 0 0 0 0
        mJointType := JointType.JointTypeFixed }]
    X_T := [1, 1, 1]
    mBodies := [Body.default, Body.default, Body.default]
    gravity := ![0, 0, 0]
    floating_base := false }

/-- C4 witness: the theorem applied to the example model at joints 1
(Revolute), 2 (Fixed) and 0 (Undefined). -/
theorem jcalc_by_joint_type_witness :
    jcalc (fun _ => (1, 0)) exJcalcModel 1 0 0 = Except.ok
      { XJ := spatialRot
          (rotE (angOf (exJcalcModel.joint 1).mJointAxis)
            ((fun _ => ((1 : ℚ), (0 : ℚ))) 0).1
            ((fun _ => ((1 : ℚ), (0 : ℚ))) 0).2)
        S := (exJcalcModel.joint 1).mJointAxis
        vJ := (0 : ℚ) • (exJcalcModel.joint 1).mJointAxis
        cJ := 0 } ∧
    jcalc (fun _ => (1, 0)) exJcalcModel 2 0 0 = Except.ok
      { XJ := 1, S := 0, vJ := 0, cJ := 0 } ∧
    jcalc (fun _ => (1, 0)) exJcalcModel 0 0 0 =
      Except.error "jcalc: unsupported joint type" :=
  ⟨(jcalc_by_joint_type (fun _ => (1, 0)) exJcalcModel 1 0 0).1 rfl,
   (jcalc_by_joint_type (fun _ => (1, 0)) exJcalcModel 2 0 0).2.1 rfl,
   (jcalc_by_joint_type (fun _ => (1, 0)) exJcalcModel 0 0 0).2.2 rfl⟩

/-- In the final outward pass, a Fixed joint's resolved acceleration is zero
(its branch of the pass never divides and assigns zero). -/
theorem accelPass_fixed_qdd (m : Model) (p1 : Pass1State) (p2 : Pass2State) :
    ∀ (k : ℕ) (a : ℕ → SV) (qdd : ℕ → ℚ) (i : ℕ), 1 ≤ i → i ≤ k →
      (m.joint i).mJointType = JointType.JointTypeFixed →
      (accelPass m p1 p2 k a qdd).2 i = 0
  | 0, a, qdd, i, h1, h2, _ => absurd (Nat.le_trans h1 h2) (by omega)
  | k + 1, a, qdd, i, h1, h2, hf => by
      by_cases hik : i = k + 1
      · subst hik
        simp [accelPass, hf]
      · have h2k : i ≤ k := by omega
        have ih := accelPass_fixed_qdd m p1 p2 k a qdd i h1 h2k hf
        simp [accelPass, hik, ih]

/-- A successful inward step at body `i` changes `d` only at `i`, and for a
Revolute joint it can only have succeeded with a nonzero `d[i]`. -/
theorem inwardStep_ok_d (m : Model) (p1 : Pass1State) (tau : ℕ → ℚ)
    (i : ℕ) (st st1 : Pass2State)
    (h : inwardStep m p1 tau i st = Except.ok st1) :
    (∀ n, n ≠ i → st1.d n = st.d n) ∧
    ((m.joint i).mJointType = JointType.JointTypeRevolute →
      st1.d i ≠ 0) := by
  cases htype : (m.joint i).mJointType with
  | JointTypeUndefined =>
      simp only [inwardStep, htype] at h
      exact absurd h (by simp)
  | JointTypeFixed =>
      simp only [inwardStep, htype] at h
      injection h with h2
      subst h2
      exact ⟨fun n hn => by simp [hn], fun hr => absurd hr (by simp)⟩
  | JointTypeRevolute =>
      simp only [inwardStep, htype] at h
      split at h
      · exact absurd h (by simp)
      · rename_i hne
        injection h with h2
        subst h2
        exact ⟨fun n hn => by simp [hn], fun _ => by simpa using hne⟩

/-- A successful inward pass over bodies `k .. 1` leaves `d` untouched above
`k` and leaves a nonzero `d[j]` at every Revolute joint `j ≤ k`. -/
theorem inwardPass_ok_d (m : Model) (p1 : Pass1State) (tau : ℕ → ℚ) :
    ∀ (k : ℕ) (st st1 : Pass2State),
      inwardPass m p1 tau k st = Except.ok st1 →
      (∀ j, k < j → st1.d j = st.d j) ∧
      (∀ j, 1 ≤ j → j ≤ k →
        (m.joint j).mJointType = JointType.JointTypeRevolute →
        st1.d j ≠ 0)
  | 0, st, st1, h => by
      injection h with h2
      subst h2
      exact ⟨fun j _ => rfl,
        fun j hj1 hj2 _ => absurd (Nat.le_trans hj1 hj2) (by omega)⟩
  | k + 1, st, st1, h => by
      rw [inwardPass] at h
      cases hs : inwardStep m p1 tau (k + 1) st with
      | error e => rw [hs] at h; simp at h
      | ok stm =>
          rw [hs] at h
          obtain ⟨hpres, hnz⟩ := inwardPass_ok_d m p1 tau k stm st1 h
          obtain ⟨spres, snz⟩ := inwardStep_ok_d m p1 tau (k + 1) st stm hs
          refine ⟨fun j hj => ?_, fun j hj1 hj2 hr => ?_⟩
          · rw [hpres j (by omega), spres j (by omega)]
          · rcases Nat.lt_or_ge j (k + 1) with hlt | hge
            · exact hnz j hj1 (by omega) hr
            · have hj : j = k + 1 := by omega
              subst hj
              rw [hpres (k + 1) (by omega)]
              exact snz hr

theorem getD_map_range (f : ℕ → ℚ) (n j : ℕ) (hj : j < n) :
    ((List.range n).map f).getD j 0 = f j := by
  rw [List.getD_eq_getElem?_getD, List.getElem?_map, List.getElem?_range hj]
  rfl

/-- C5: whenever `ForwardDynamics` produces a result, a joint of Fixed type
has zero joint acceleration, both as the internal `qdd i` and as the external
0-based entry `QDDot[i-1]`: a Fixed joint never acquires a joint
acceleration because its motion subspace is the zero vector. -/
theorem forward_dynamics_fixed_joint_zero_qddot (cs : ℚ → ℚ × ℚ) (m : Model)
    (Q QDot Tau : List ℚ) (r : FDResult) (i : ℕ)
    (h : ForwardDynamics cs m Q QDot Tau = Except.ok r)
    (h1 : 1 ≤ i) (h2 : i ≤ m.NB)
    (hf : (m.joint i).mJointType = JointType.JointTypeFixed) :
    r.qdd i = 0 ∧ r.QDDot.getD (i - 1) 0 = 0 := by
  rw [ForwardDynamics] at h
  cases hp : fdPasses cs m Q QDot Tau 1 0 with
  | error e => rw [hp] at h; simp at h
  | ok p =>
      rw [hp] at h
      simp only [] at h
      injection h with h2r
      subst h2r
      constructor
      · exact accelPass_fixed_qdd m p.1 p.2 m.NB _ _ i h1 h2 hf
      · show ((List.range m.NB).map _).getD (i - 1) 0 = 0
        rw [getD_map_range _ m.NB (i - 1) (by omega)]
        have hi : i - 1 + 1 = i := by omega
        rw [hi]
        exact accelPass_fixed_qdd m p.1 p.2 m.NB _ _ i h1 h2 hf

/-- C6: during the inward pass, a zero effective joint inertia `d[i]` at a
Revolute joint is surfaced as a fatal error, so whenever `ForwardDynamics`
does produce a result, every Revolute joint's stored `d[i]` is nonzero: no
`QDDot` is ever produced by silently dividing by a zero `d[i]`. -/
theorem forward_dynamics_surfaces_zero_d (cs : ℚ → ℚ × ℚ) (m : Model)
    (Q QDot Tau : List ℚ) (r : FDResult)
    (h : ForwardDynamics cs m Q QDot Tau = Except.ok r) :
    ∀ i, 1 ≤ i → i ≤ m.NB →
      (m.joint i).mJointType = JointType.JointTypeRevolute →
      r.d i ≠ 0 := by
  intro i h1 h2 hr
  rw [ForwardDynamics] at h
  cases hp : fdPasses cs m Q QDot Tau 1 0 with
  | error e => rw [hp] at h; simp at h
  | ok p =>
      rw [hp] at h
      injection h with h2r
      subst h2r
      rw [fdPasses] at hp
      cases ho : outwardPass cs m (fun n => Q.getD (n - 1) 0)
          (fun n => QDot.getD (n - 1) 0) m.NB (pass1Init m 1 0) with
      | error e => rw [ho] at hp; simp at hp
      | ok p1 =>
          rw [ho] at hp
          dsimp only at hp
          cases hi : inwardPass m p1 (fun n => Tau.getD (n - 1) 0) m.NB
              (pass2Init p1) with
          | error e => rw [hi] at hp; simp at hp
          | ok p2 =>
              rw [hi] at hp
              injection hp with hp2
              subst hp2
              exact (inwardPass_ok_d m p1 _ m.NB (pass2Init p1) p2 hi).2
                i h1 h2 hr

/-- C7: for every model with the floating base disabled, calling
`ForwardDynamicsFloatingBase` with `X_B` the identity, `v_B = 0` and
`f_B = 0` yields the same joint accelerations `QDDot` as `ForwardDynamics`
on the same state: the two entry points agree in this configuration. -/
theorem floating_matches_fixed_when_base_fixed (cs : ℚ → ℚ × ℚ) (m : Model)
    (Q QDot Tau : List ℚ) (h : m.floating_base = false) :
    (ForwardDynamicsFloatingBase cs m Q QDot Tau 1 0 0).map
        (fun p => p.2.QDDot) =
      (ForwardDynamics cs m Q QDot Tau).map FDResult.QDDot := by
  rw [ForwardDynamicsFloatingBase, ForwardDynamics]
  cases hp : fdPasses cs m Q QDot Tau 1 0 with
  | error e => rfl
  | ok p => simp [h, Except.map]

/-- Example model with one body attached to the root by a Fixed joint. -/
def exFixedModel : Model :=
  { lambda := [0, 0]
    mJoints := [Joint.default,
      { mJointAxis := sv6 0 0 0 0 0 0
        mJointType := JointType.JointTypeFixed }]
    X_T := [1, 1]
    mBodies := [Body.default, Body.default]
    gravity := ![0, 0, 0]
    floating_base := false }

/-- C5 witness: the fixed-joint model runs to completion and the theorem
gives a zero joint acceleration for joint 1, internally and externally. -/
theorem forward_dynamics_fixed_joint_zero_qddot_witness :
    ∃ r, ForwardDynamics (fun _ => (1, 0)) exFixedModel [0] [0] [0] =
        Except.ok r ∧ r.qdd 1 = 0 ∧ r.QDDot.getD 0 0 = 0 := by
  obtain ⟨r, hr⟩ : ∃ r, ForwardDynamics (fun _ => (1, 0)) exFixedModel
      [0] [0] [0] = Except.ok r := ⟨_, rfl⟩
  obtain ⟨hq, hQ⟩ := forward_dynamics_fixed_joint_zero_qddot _ exFixedModel
    [0] [0] [0] r 1 hr (by omega) (by decide) rfl
  exact ⟨r, hr, hq, hQ⟩

/-- A successful `Except` value is `ok` for some payload. -/
theorem exists_ok_of_isOk (x : Except String FDResult)
    (h : x.isOk = true) : ∃ r, x = Except.ok r := by
  cases x with
  | ok r => exact ⟨r, rfl⟩
  | error e => simp [Except.isOk, Except.toBool] at h

/-- Example model with one body attached to the root by a Revolute joint
about the z-axis, with identity spatial inertia (so the joint's effective
inertia along its axis is 1). -/
def exRevModel : Model :=
  { lambda := [0, 0]
    mJoints := [Joint.default,
      { mJointAxis := sv6 0 0 1 0 0 0
        mJointType := JointType.JointTypeRevolute }]
    X_T := [1, 1]
    mBodies := [Body.default,
      { mSpatialInertia := 1
        mCenterOfMass := ![0, 0, 0]
        mMass := 1 }]
    gravity := ![0, 0, 0]
    floating_base := false }

/-- C6 witness: the revolute model runs to completion, and the theorem
yields a nonzero effective inertia `d` at its revolute joint. -/
theorem forward_dynamics_surfaces_zero_d_witness :
    ∃ r, ForwardDynamics (fun _ => (1, 0)) exRevModel [0] [0] [0] =
        Except.ok r ∧ r.d 1 ≠ 0 := by
  obtain ⟨r, hr⟩ := exists_ok_of_isOk
    (ForwardDynamics (fun _ => (1, 0)) exRevModel [0] [0] [0])
    (by norm_num [ForwardDynamics, fdPasses, outwardPass, outwardStep,
      inwardPass, inwardStep, accelPass, pass1Init, pass2Init, fdFinish,
      jcalc, gravSeed, Model.NB, Model.joint, Model.parent, Model.XT,
      Model.body, exRevModel, Joint.default, Body.default, sv6, sm6, m3,
      crossMatrix, crossM, crossF, angOf, linOf, blk, spatialRot, rotE, fl,
      fh, Matrix.mulVec, Matrix.dotProduct, Fin.sum_univ_six,
      Fin.sum_univ_three, Matrix.mul_apply, List.getD, fin6_v0, fin6_v1,
      fin6_v2, fin6_v3, fin6_v4, fin6_v5, fin3_v0, fin3_v1, fin3_v2,
      Except.isOk, Except.toBool])
  exact ⟨r, hr, forward_dynamics_surfaces_zero_d _ exRevModel [0] [0] [0] r
    hr 1 (by omega) (by decide) rfl⟩

/-- Example chain model, bodies 0 (root), 1, 2, connected by a revolute and
a fixed joint, floating base disabled. -/
def exChainModel : Model :=
  { lambda := [0, 0, 1]
    mJoints := [Joint.default,
      { mJointAxis := sv6 0 0 1 0 0 0
        mJointType := JointType.JointTypeRevolute },
      { mJointAxis := sv6 0 0 0 0 0 0
        mJointType := JointType.JointTypeFixed }]
    X_T := [1, 1, 1]
    mBodies := [Body.default,
      { mSpatialInertia := 1
        mCenterOfMass := ![0, 0, 0]
        mMass := 1 },
      Body.default]
    gravity := ![0, 0, 0]
    floating_base := false }

/-- C7 witness: on the chain model with the floating base disabled, the two
entry points agree, by the theorem applied at this concrete model. -/
theorem floating_matches_fixed_when_base_fixed_witness :
    (ForwardDynamicsFloatingBase (fun _ => (1, 0)) exChainModel [0, 0]
        [0, 0] [0, 0] 1 0 0).map (fun p => p.2.QDDot) =
      (ForwardDynamics (fun _ => (1, 0)) exChainModel [0, 0] [0, 0]
        [0, 0]).map FDResult.QDDot :=
  floating_matches_fixed_when_base_fixed (fun _ => (1, 0)) exChainModel
    [0, 0] [0, 0] [0, 0] rfl
